import Mathlib

/-!
Shallow embedding of the nrf-softdevice BLE central and L2CAP modules
(src/nrf-softdevice/src/ble/central.rs and src/nrf-softdevice/src/ble/l2cap.rs).

Hardware command issuance is modelled as an oracle `Cmd → Option RawError`
(`none` means the command is accepted immediately, `some e` that it is rejected
with status `e`), and the asynchronous event stream as an explicit `List BleEvt`
consumed by the suspended operations.  Side effects are made observable: each
operation returns, besides its result, the list of hardware commands it issued
and the list of buffers it handed to the allocator free path.
-/

/-- Raw SoftDevice error statuses (the subset this module distinguishes:
`RawError::Resources` is matched explicitly by `Channel::try_tx`). -/
inductive RawError where
  | resources
  | invalidState
  | timeout
  | other (code : Nat)
deriving DecidableEq, Repr

/-- Error returned by `check_connected` when the connection is gone. -/
inductive DisconnectedError where
  | mk
deriving DecidableEq, Repr

/-- Connection-state record (spec section 3): connected flag, handle and the
PHY fields touched by `central::connect`.  Modelled from the spec: the record
itself lives in connection.rs, which is not among the given sources. -/
structure ConnectionState where
  connected : Bool
  conn_handle : Nat
  tx_phys : Nat
  rx_phys : Nat
deriving DecidableEq, Repr

/-- Modelled from the spec: `ConnectionState::check_connected` (connection.rs,
not among the given sources) returns the live handle, or a disconnected
failure when the connected flag is not set (spec section 4.3). -/
def check_connected (st : ConnectionState) : Except DisconnectedError Nat :=
  if st.connected then Except.ok st.conn_handle else Except.error DisconnectedError.mk

/-- Events delivered by the SoftDevice to the dispatch entry points, restricted
to the kinds the two source files inspect.  Pointers and lengths are plain
naturals. -/
inductive BleEvt where
  | gapDisconnected
  | chSetup
  | chSetupRefused
  | chSetupRequest (le_psm : Nat) (local_cid : Nat)
  | chReleased
  | chTx (sdu_buf : Nat)
  | chRx (sdu_buf : Nat) (sdu_len : Nat)
  | chSduBufReleased (sdu_buf : Nat)
  | chCredit
  | otherEvt (id : Nat)
deriving DecidableEq, Repr

/-- Hardware commands the two source files can issue. -/
inductive Cmd where
  | gapConnect (addr : Nat)
  | gapConnectCancel
  | l2capChSetup (conn_handle cid le_psm status rx_mps rx_mtu : Nat)
  | l2capChFlowControl (conn_handle cid credits : Nat)
  | l2capChTx (conn_handle cid ptr len : Nat)
  | l2capChRx (conn_handle cid ptr len : Nat)
deriving DecidableEq, Repr

def BLE_L2CAP_CH_STATUS_CODE_SUCCESS : Nat := 0
def BLE_L2CAP_CH_STATUS_CODE_LE_PSM_NOT_SUPPORTED : Nat := 2
def BLE_L2CAP_CID_INVALID : Nat := 0
def BLE_GAP_PHY_AUTO : Nat := 0

/-- The `Packet` capability reduced to its transferable raw form: a buffer is a
pointer plus a length (`into_raw_parts` / `from_raw_parts` in l2cap.rs). -/
structure RawPacket where
  ptr : Nat
  len : Nat
deriving DecidableEq, Repr

def RawPacket.into_raw_parts (p : RawPacket) : Nat × Nat := (p.ptr, p.len)

def RawPacket.from_raw_parts (ptr len : Nat) : RawPacket := ⟨ptr, len⟩

/-- Result of running an operation to completion: a value, a typed error, an
aborted run (`panic!` / `unreachable!` in the source), or a task still
suspended because the event stream ran out. -/
inductive Outcome (ε : Type) (α : Type) where
  | ok (a : α)
  | err (e : ε)
  | panicked (msg : String)
  | pending
deriving DecidableEq, Repr

/-- Error type of `Channel::try_tx` / `Channel::tx` (l2cap.rs). -/
inductive TxError where
  | disconnected
  | txQueueFull (p : RawPacket)
  | raw (e : RawError)
deriving DecidableEq, Repr

/-- Error type of `Channel::rx` (l2cap.rs). -/
inductive RxError where
  | disconnected
  | allocateFailed
  | raw (e : RawError)
deriving DecidableEq, Repr

/-- Error type of `L2cap::setup` / `L2cap::listen_with` (l2cap.rs). -/
inductive SetupError where
  | disconnected
  | refused
  | raw (e : RawError)
deriving DecidableEq, Repr

/-- Error type of `central::connect` (central.rs). -/
inductive ConnectError where
  | timeout
  | raw (e : RawError)
deriving DecidableEq, Repr

/-- An established L2CAP channel: owning connection (by handle) and channel id
(struct `Channel` in l2cap.rs, with `conn : Connection` reduced to its handle). -/
structure Channel where
  conn : Nat
  cid : Nat
deriving DecidableEq, Repr

/-- The L2CAP event dispatch entry point `on_evt` (l2cap.rs lines 53 to 72),
returning the portal calls it performs (keyed by connection handle) and the
buffers it hands to the allocator free path (`PACKET_FREE`). -/
def on_evt (conn_handle : Nat) (e : BleEvt) : List (Nat × BleEvt) × List Nat :=
  match e with
  | BleEvt.chCredit => ([], [])
  | BleEvt.chSduBufReleased p => ([], [p])
  | BleEvt.chTx p => ([(conn_handle, BleEvt.chTx p)], [p])
  | e => ([(conn_handle, e)], [])

/-- Whether `on_evt` forwards an event of this kind to the per-connection
portal (everything except `CH_CREDIT` and `CH_SDU_BUF_RELEASED`). -/
def routesToPortal (e : BleEvt) : Bool :=
  match e with
  | BleEvt.chCredit => false
  | BleEvt.chSduBufReleased _ => false
  | _ => true

/-- The module-level mutable globals of l2cap.rs: the `IS_INIT` atomic flag and
whether the `PACKET_FREE` function pointer has been installed. -/
structure L2capGlobals where
  is_init : Bool
  packet_free : Bool
deriving DecidableEq, Repr

/-- `L2cap::init` (l2cap.rs lines 188 to 204): the compare-exchange on
`IS_INIT` either succeeds and installs `PACKET_FREE`, or the call aborts. -/
def L2cap.init (g : L2capGlobals) : Outcome Unit Unit × L2capGlobals :=
  if g.is_init then (Outcome.panicked "L2cap::init() called multiple times.", g)
  else (Outcome.ok (), { is_init := true, packet_free := true })

/-- `Channel::try_tx` (l2cap.rs lines 406 to 429).  The hardware oracle `hw`
gives the immediate status of each issued command.  Returns the result, the
issued commands, and the buffers handed to the allocator free path. -/
def Channel.try_tx (ch : Channel) (st : ConnectionState) (mtu : Nat) (sdu : RawPacket)
    (hw : Cmd → Option RawError) : Outcome TxError Unit × List Cmd × List Nat :=
  match check_connected st with
  | Except.error _ => (Outcome.err TxError.disconnected, [], [])
  | Except.ok conn_handle =>
    match sdu.into_raw_parts with
    | (p, len) =>
      if len ≤ mtu then
        let c := Cmd.l2capChTx conn_handle ch.cid p len
        match hw c with
        | some RawError.resources =>
          (Outcome.err (TxError.txQueueFull (RawPacket.from_raw_parts p len)), [c], [])
        | some e => (Outcome.err (TxError.raw e), [c], [p])
        | none => (Outcome.ok (), [c], [])
      else (Outcome.panicked "len <= MTU", [], [])

/-- The resolver of the `wait_many` closure inside `Channel::rx` (l2cap.rs
lines 482 to 499), composed with the `on_evt` routing: events that `on_evt`
does not forward to the portal never reach the closure, a forwarded event
resolves the wait exactly as the source `match` does (`None` keeps waiting). -/
def Channel.rx_resolves (e : BleEvt) : Option (Outcome RxError RawPacket) :=
  if routesToPortal e then
    match e with
    | BleEvt.gapDisconnected => some (Outcome.err RxError.disconnected)
    | BleEvt.chReleased => some (Outcome.err RxError.disconnected)
    | BleEvt.chRx p len => some (Outcome.ok (RawPacket.from_raw_parts p len))
    | _ => none
  else none

/-- The suspended tail of `Channel::rx`: consume delivered events until the
`wait_many` closure resolves. -/
def Channel.rx_wait : List BleEvt → Outcome RxError RawPacket
  | [] => Outcome.pending
  | e :: rest =>
    match Channel.rx_resolves e with
    | some r => r
    | none => Channel.rx_wait rest

/-- `Channel::rx` (l2cap.rs lines 461 to 500).  `alloc` is the outcome of
`P::allocate()`; the third component lists the buffers handed to the allocator
free path by this call itself. -/
def Channel.rx (ch : Channel) (st : ConnectionState) (mtu : Nat) (alloc : Option Nat)
    (hw : Cmd → Option RawError) (evts : List BleEvt) :
    Outcome RxError RawPacket × List Cmd × List Nat :=
  match check_connected st with
  | Except.error _ => (Outcome.err RxError.disconnected, [], [])
  | Except.ok conn_handle =>
    match alloc with
    | none => (Outcome.err RxError.allocateFailed, [], [])
    | some p =>
      let c := Cmd.l2capChRx conn_handle ch.cid p mtu
      match hw c with
      | some e => (Outcome.err (RxError.raw e), [c], [p])
      | none => (Channel.rx_wait evts, [c], [])

/-- Configuration of an L2CAP channel (struct `Config` in l2cap.rs). -/
structure Config where
  credits : Nat
deriving DecidableEq, Repr

/-- The suspended tail of `L2cap::setup`: the `wait_once` closure of l2cap.rs
lines 233 to 273 applied to the first event `on_evt` forwards to the portal.
`cid` is the channel id the SoftDevice assigned in the setup command. -/
def L2cap.setup_wait (conn_handle cid credits : Nat) (hw : Cmd → Option RawError) :
    List BleEvt → Outcome SetupError Channel × List Cmd
  | [] => (Outcome.pending, [])
  | e :: rest =>
    if routesToPortal e then
      match e with
      | BleEvt.gapDisconnected => (Outcome.err SetupError.disconnected, [])
      | BleEvt.chReleased => (Outcome.err SetupError.disconnected, [])
      | BleEvt.chSetup =>
        if credits ≠ 1 then
          let fc := Cmd.l2capChFlowControl conn_handle cid credits
          match hw fc with
          | some e2 => (Outcome.err (SetupError.raw e2), [fc])
          | none => (Outcome.ok ⟨conn_handle, cid⟩, [fc])
        else (Outcome.ok ⟨conn_handle, cid⟩, [])
      | BleEvt.chSetupRefused => (Outcome.err SetupError.refused, [])
      | _ => (Outcome.panicked "unexpected event", [])
    else L2cap.setup_wait conn_handle cid credits hw rest

/-- `L2cap::setup` (l2cap.rs lines 209 to 274).  `rx_mps` is `sd.l2cap_rx_mps`,
`mtu` is `P::MTU`, `assigned_cid` the id the SoftDevice writes through the
`cid` out-parameter when it accepts the setup command. -/
def L2cap.setup (st : ConnectionState) (config : Config) (psm rx_mps mtu assigned_cid : Nat)
    (hw : Cmd → Option RawError) (evts : List BleEvt) :
    Outcome SetupError Channel × List Cmd :=
  match check_connected st with
  | Except.error _ => (Outcome.err SetupError.disconnected, [])
  | Except.ok conn_handle =>
    let c := Cmd.l2capChSetup conn_handle BLE_L2CAP_CID_INVALID psm 0 rx_mps mtu
    match hw c with
    | some e => (Outcome.err (SetupError.raw e), [c])
    | none =>
      let r := L2cap.setup_wait conn_handle assigned_cid config.credits hw evts
      (r.1, c :: r.2)

/-- The suspended body of `L2cap::listen_with`: the `wait_many` closure of
l2cap.rs lines 297 to 367 run over the delivered events (skipping events
`on_evt` does not forward to the portal). -/
def L2cap.listen_wait (conn_handle credits rx_mps mtu : Nat) (accept_psm : Nat → Bool)
    (hw : Cmd → Option RawError) : List BleEvt → Outcome SetupError (Nat × Channel) × List Cmd
  | [] => (Outcome.pending, [])
  | e :: rest =>
    if routesToPortal e then
      match e with
      | BleEvt.gapDisconnected => (Outcome.err SetupError.disconnected, [])
      | BleEvt.chSetupRequest le_psm local_cid =>
        if accept_psm le_psm then
          let c := Cmd.l2capChSetup conn_handle local_cid le_psm
            BLE_L2CAP_CH_STATUS_CODE_SUCCESS rx_mps mtu
          match hw c with
          | some e2 => (Outcome.err (SetupError.raw e2), [c])
          | none =>
            if credits ≠ 1 then
              let fc := Cmd.l2capChFlowControl conn_handle local_cid credits
              match hw fc with
              | some e2 => (Outcome.err (SetupError.raw e2), [c, fc])
              | none => (Outcome.ok (le_psm, ⟨conn_handle, local_cid⟩), [c, fc])
            else (Outcome.ok (le_psm, ⟨conn_handle, local_cid⟩), [c])
        else
          let c := Cmd.l2capChSetup conn_handle local_cid le_psm
            BLE_L2CAP_CH_STATUS_CODE_LE_PSM_NOT_SUPPORTED 0 0
          let r := L2cap.listen_wait conn_handle credits rx_mps mtu accept_psm hw rest
          (r.1, c :: r.2)
      | _ => (Outcome.panicked "unexpected event", [])
    else L2cap.listen_wait conn_handle credits rx_mps mtu accept_psm hw rest

/-- `L2cap::listen_with` (l2cap.rs lines 288 to 369). -/
def L2cap.listen_with (st : ConnectionState) (config : Config) (accept_psm : Nat → Bool)
    (rx_mps mtu : Nat) (hw : Cmd → Option RawError) (evts : List BleEvt) :
    Outcome SetupError (Nat × Channel) × List Cmd :=
  match check_connected st with
  | Except.error _ => (Outcome.err SetupError.disconnected, [])
  | Except.ok conn_handle =>
    L2cap.listen_wait conn_handle config.credits rx_mps mtu accept_psm hw evts

/-- Modelled from the spec: event dispatch outside these two files (spec
sections 3 and 5) resets the connection record when the disconnect event for
the handle is processed; all other events leave the record untouched. -/
def dispatchConn (e : BleEvt) (st : ConnectionState) : ConnectionState :=
  match e with
  | BleEvt.gapDisconnected => { st with connected := false }
  | _ => st

/-- Modelled from the spec: the hardware transmit queue frees one slot when it
emits a transmit-completed event (spec section 4.6, credit-based transmit). -/
def dispatchQueue (e : BleEvt) (qf : Nat) : Nat :=
  match e with
  | BleEvt.chTx _ => qf + 1
  | _ => qf

/-- Modelled from the spec: the hardware accepts a tx command exactly when a
transmit-queue slot is free, and rejects it with the resource-exhaustion
status otherwise (spec section 7, resource exhaustion). -/
def txHw (qf : Nat) : Cmd → Option RawError :=
  fun _ => if qf = 0 then some RawError.resources else none

/-- Scan the delivered events for the first one `on_evt` forwards to the
per-connection portal, applying the dispatch state updates along the way.
Returns the updated connection state, queue slots, and the forwarded event
together with the events still undelivered. -/
def nextPortalEvt : ConnectionState → Nat → List BleEvt →
    ConnectionState × Nat × Option (BleEvt × List BleEvt)
  | st, qf, [] => (st, qf, none)
  | st, qf, e :: rest =>
    if routesToPortal e then (dispatchConn e st, dispatchQueue e qf, some (e, rest))
    else nextPortalEvt (dispatchConn e st) (dispatchQueue e qf) rest

theorem nextPortalEvt_rest_length : ∀ (st : ConnectionState) (qf : Nat) (evts : List BleEvt)
    (st2 : ConnectionState) (qf2 : Nat) (e : BleEvt) (rest : List BleEvt),
    nextPortalEvt st qf evts = (st2, qf2, some (e, rest)) → rest.length < evts.length := by
  intro st qf evts
  induction evts generalizing st qf with
  | nil => intro st2 qf2 e rest h; simp [nextPortalEvt] at h
  | cons a l ih =>
    intro st2 qf2 e rest h
    by_cases hr : routesToPortal a
    · simp [nextPortalEvt, hr] at h
      obtain ⟨_, _, _, h2⟩ := h
      simp [h2]
    · simp [nextPortalEvt, hr] at h
      have := ih (dispatchConn a st) (dispatchQueue a qf) st2 qf2 e rest h
      simp
      omega

/-- The retry loop of `Channel::tx` (l2cap.rs lines 435 to 457): attempt
`try_tx`; when the queue is full, suspend in `wait_once` until the portal
forwards an event, which the closure requires to be `CH_TX` or `CH_RELEASED`
(`unreachable!("Invalid event")` otherwise), then retry with the returned
buffer.  Returns the result and the tx commands issued across the attempts. -/
def Channel.tx_run (ch : Channel) (mtu : Nat) (st : ConnectionState) (qf : Nat)
    (sdu : RawPacket) (evts : List BleEvt) : Outcome TxError Unit × List Cmd :=
  match Channel.try_tx ch st mtu sdu (txHw qf) with
  | (Outcome.err (TxError.txQueueFull s), cmds, _) =>
    (match h : nextPortalEvt st qf evts with
     | (_, _, none) => (Outcome.pending, cmds)
     | (st2, qf2, some (BleEvt.chTx p, rest)) =>
       let r := Channel.tx_run ch mtu st2 qf2 s rest
       (r.1, cmds ++ r.2)
     | (st2, qf2, some (BleEvt.chReleased, rest)) =>
       let r := Channel.tx_run ch mtu st2 qf2 s rest
       (r.1, cmds ++ r.2)
     | (_, _, some (_, _)) => (Outcome.panicked "Invalid event", cmds))
  | (r, cmds, _) => (r, cmds)
termination_by evts.length
decreasing_by
  all_goals exact nextPortalEvt_rest_length st qf evts _ _ _ _ h

/-- `Channel::tx` (l2cap.rs lines 432 to 458): the initial `check_connected`,
then the retry loop. -/
def Channel.tx (ch : Channel) (st : ConnectionState) (mtu qf : Nat) (sdu : RawPacket)
    (evts : List BleEvt) : Outcome TxError Unit × List Cmd :=
  match check_connected st with
  | Except.error _ => (Outcome.err TxError.disconnected, [])
  | Except.ok _ => Channel.tx_run ch mtu st qf sdu evts

/-- Connection parameters (struct `ble_gap_conn_params_t`). -/
structure ConnParams where
  min_conn_interval : Nat
  max_conn_interval : Nat
  slave_latency : Nat
  conn_sup_timeout : Nat
deriving DecidableEq, Repr

/-- Configuration of `central::connect` (struct `Config` in central.rs). -/
structure central.Config where
  tx_phys : Nat
  rx_phys : Nat
  conn_params : ConnParams
deriving DecidableEq, Repr

/-- The `Default` impl for the central `Config` (central.rs lines 135 to 150). -/
def central.Config.default : central.Config :=
  { tx_phys := BLE_GAP_PHY_AUTO
    rx_phys := BLE_GAP_PHY_AUTO
    conn_params :=
      { min_conn_interval := 40
        max_conn_interval := 200
        slave_latency := 0
        conn_sup_timeout := 400 } }

/-- The `with_state` closure `central::connect` runs after the connect portal
resolves (central.rs lines 106 to 109).  Note the source assigns
`state.rx_phys` from `config.tx_phys` and `state.tx_phys` from
`config.rx_phys`. -/
def central.connect_update_phys (config : central.Config) (st : ConnectionState) :
    ConnectionState :=
  { st with rx_phys := config.tx_phys, tx_phys := config.rx_phys }

/-- What happens at the suspension point of `central::connect`: the task is
abandoned (dropped) while suspended, or the connect portal resolves with a
success (carrying the new handle) or a typed failure. -/
inductive PortalOutcome where
  | abandoned
  | resolvedOk (conn_handle : Nat)
  | resolvedErr (e : ConnectError)
deriving DecidableEq, Repr

/-- `central::connect` (central.rs lines 51 to 120, with the gatt-client
feature off).  `connectStatus` is the immediate status of the connect command;
the `OnDrop` guard armed at line 89 issues a cancel-connect command on every
exit path before `d.defuse()` at line 111 (modelled from the spec, util.rs not
being among the given sources: a scope guard runs its closure unless defused).
Returns the result, the issued commands, and the final connection state of the
new connection. -/
def central.connect (whitelist : List Nat) (config : central.Config)
    (connectStatus : Option RawError) (outcome : PortalOutcome) (st : ConnectionState) :
    Outcome ConnectError Nat × List Cmd × ConnectionState :=
  match whitelist with
  | [] => (Outcome.panicked "zero-length whitelist", [], st)
  | [addr] =>
    match connectStatus with
    | some e => (Outcome.err (ConnectError.raw e), [Cmd.gapConnect addr, Cmd.gapConnectCancel], st)
    | none =>
      match outcome with
      | PortalOutcome.abandoned =>
        (Outcome.pending, [Cmd.gapConnect addr, Cmd.gapConnectCancel], st)
      | PortalOutcome.resolvedErr e =>
        (Outcome.err e, [Cmd.gapConnect addr, Cmd.gapConnectCancel], st)
      | PortalOutcome.resolvedOk h =>
        (Outcome.ok h, [Cmd.gapConnect addr], central.connect_update_phys config st)
  | _ :: _ :: _ => (Outcome.panicked "todo", [], st)

/-- Number of cancel-connect commands in an issued-command trace. -/
def countCancels (cmds : List Cmd) : Nat :=
  (cmds.filter (fun c => decide (c = Cmd.gapConnectCancel))).length

/-- Claim C10: `L2cap::init` succeeds and installs the packet-free function at
most once per execution: on a fresh state it returns the driver and installs
`PACKET_FREE`; once the `IS_INIT` flag is set, every further call panics and
reinstalls nothing (the globals are left unchanged). -/
theorem l2cap_init_at_most_once :
    (∀ pf : Bool, L2cap.init ⟨false, pf⟩ = (Outcome.ok (), ⟨true, true⟩)) ∧
    (∀ pf : Bool, L2cap.init ⟨true, pf⟩
      = (Outcome.panicked "L2cap::init() called multiple times.", ⟨true, pf⟩)) := by
  decide

/-- Claim C5, counterexample: a transmit-completed (transmit-buffer-released)
notification delivered to `on_evt` IS routed through the per-connection
portal, contradicting the claim that such notifications are not. -/
theorem on_evt_chtx_routed :
    (on_evt 3 (BleEvt.chTx 100)).1 = [(3, BleEvt.chTx 100)] ∧
    (on_evt 3 (BleEvt.chTx 100)).1 ≠ [] := by
  decide

/-- Claim C5, amended: both buffer-release notifications hand their buffer to
the allocator free path directly in the dispatch path; the SDU-buffer-released
notification is not routed through the per-connection portal, while the
transmit-completed notification is routed through the portal and the buffer is
freed after that call. -/
theorem on_evt_buffer_release (h p : Nat) :
    on_evt h (BleEvt.chSduBufReleased p) = ([], [p]) ∧
    on_evt h (BleEvt.chTx p) = ([(h, BleEvt.chTx p)], [p]) :=
  ⟨rfl, rfl⟩

/-- Claim C1, code bug: running `central::connect` with configured
`tx_phys = 1` and `rx_phys = 2` to a successful resolution with handle 3
leaves the connection-state record with `tx_phys = 2` and `rx_phys = 1`: the
`with_state` update at central.rs lines 106 to 109 assigns the fields swapped,
so the state does not report the configured PHY fields. -/
theorem central_connect_phys_swapped :
    (central.connect [7] ⟨1, 2, ⟨40, 200, 0, 400⟩⟩ none (PortalOutcome.resolvedOk 3)
        ⟨true, 3, 0, 0⟩).2.2.tx_phys = 2 ∧
    (central.connect [7] ⟨1, 2, ⟨40, 200, 0, 400⟩⟩ none (PortalOutcome.resolvedOk 3)
        ⟨true, 3, 0, 0⟩).2.2.rx_phys = 1 ∧
    ¬ ((central.connect [7] ⟨1, 2, ⟨40, 200, 0, 400⟩⟩ none (PortalOutcome.resolvedOk 3)
        ⟨true, 3, 0, 0⟩).2.2.tx_phys = 1 ∧
       (central.connect [7] ⟨1, 2, ⟨40, 200, 0, 400⟩⟩ none (PortalOutcome.resolvedOk 3)
        ⟨true, 3, 0, 0⟩).2.2.rx_phys = 2) := by
  decide

/-- Claim C9: `central::connect` panics before issuing any command when the
whitelist has zero or more than one address, and for exactly one address it
never panics and the connect command is issued. -/
theorem central_connect_whitelist (a b : Nat) (l : List Nat) (config : central.Config)
    (s : Option RawError) (o : PortalOutcome) (st : ConnectionState) :
    central.connect [] config s o st = (Outcome.panicked "zero-length whitelist", [], st) ∧
    central.connect (a :: b :: l) config s o st = (Outcome.panicked "todo", [], st) ∧
    (∀ msg : String, (central.connect [a] config s o st).1 ≠ Outcome.panicked msg) ∧
    Cmd.gapConnect a ∈ (central.connect [a] config s o st).2.1 := by
  refine ⟨rfl, rfl, ?_, ?_⟩
  · intro msg
    cases s with
    | some e => simp [central.connect]
    | none => cases o <;> simp [central.connect]
  · cases s with
    | some e => simp [central.connect]
    | none => cases o <;> simp [central.connect]

/-- Claim C6: abandoning the suspended connect before its portal resolves
issues exactly one cancel-connect command; when the portal resolved
successfully before abandonment the guard is defused and zero cancel-connect
commands are issued. -/
theorem central_connect_cancel_guard (addr : Nat) (config : central.Config)
    (st : ConnectionState) (h : Nat) :
    countCancels (central.connect [addr] config none PortalOutcome.abandoned st).2.1 = 1 ∧
    countCancels (central.connect [addr] config none (PortalOutcome.resolvedOk h) st).2.1 = 0 := by
  simp [central.connect, countCancels, List.filter]

/-- Claim C3: on a connected channel, when the hardware rejects the tx command
with the resource-exhaustion status, `try_tx` returns `TxQueueFull` carrying a
buffer reconstructed from the same pointer and length (hence byte-for-byte the
original), the single rejected tx command is the only hardware side effect,
and no buffer is handed to the allocator free path. -/
theorem channel_try_tx_queue_full (ch : Channel) (st : ConnectionState) (mtu : Nat)
    (sdu : RawPacket) (hw : Cmd → Option RawError)
    (hconn : st.connected = true) (hlen : sdu.len ≤ mtu)
    (hhw : hw (Cmd.l2capChTx st.conn_handle ch.cid sdu.ptr sdu.len) = some RawError.resources) :
    Channel.try_tx ch st mtu sdu hw
      = (Outcome.err (TxError.txQueueFull sdu),
         [Cmd.l2capChTx st.conn_handle ch.cid sdu.ptr sdu.len], []) := by
  simp [Channel.try_tx, check_connected, hconn, RawPacket.into_raw_parts, hlen, hhw,
    RawPacket.from_raw_parts]

theorem channel_try_tx_queue_full_witness :
    Channel.try_tx ⟨3, 4⟩ ⟨true, 3, 0, 0⟩ 23 ⟨100, 5⟩ (fun _ => some RawError.resources)
      = (Outcome.err (TxError.txQueueFull ⟨100, 5⟩), [Cmd.l2capChTx 3 4 100 5], []) :=
  channel_try_tx_queue_full ⟨3, 4⟩ ⟨true, 3, 0, 0⟩ 23 ⟨100, 5⟩
    (fun _ => some RawError.resources) rfl (by decide) rfl

/-- Claim C7: every channel operation invoked while the connection record's
connected flag is not set returns its Disconnected error variant without
issuing any hardware command (and without touching the allocator). -/
theorem l2cap_ops_fail_fast (st : ConnectionState) (hst : st.connected = false)
    (ch : Channel) (cfg : Config) (accept_psm : Nat → Bool)
    (psm rx_mps mtu assigned_cid qf : Nat) (sdu : RawPacket) (alloc : Option Nat)
    (hw : Cmd → Option RawError) (evts : List BleEvt) :
    L2cap.setup st cfg psm rx_mps mtu assigned_cid hw evts
      = (Outcome.err SetupError.disconnected, []) ∧
    L2cap.listen_with st cfg accept_psm rx_mps mtu hw evts
      = (Outcome.err SetupError.disconnected, []) ∧
    Channel.try_tx ch st mtu sdu hw = (Outcome.err TxError.disconnected, [], []) ∧
    Channel.tx ch st mtu qf sdu evts = (Outcome.err TxError.disconnected, []) ∧
    Channel.rx ch st mtu alloc hw evts = (Outcome.err RxError.disconnected, [], []) := by
  have hcc : check_connected st = Except.error DisconnectedError.mk := by
    simp [check_connected, hst]
  refine ⟨?_, ?_, ?_, ?_, ?_⟩ <;>
    simp [L2cap.setup, L2cap.listen_with, Channel.try_tx, Channel.tx, Channel.rx, hcc]

theorem l2cap_ops_fail_fast_witness :
    (⟨false, 0, 0, 0⟩ : ConnectionState).connected = false ∧
    Channel.rx ⟨0, 4⟩ ⟨false, 0, 0, 0⟩ 23 (some 100) (fun _ => none) []
      = (Outcome.err RxError.disconnected, [], []) :=
  ⟨rfl,
    (l2cap_ops_fail_fast ⟨false, 0, 0, 0⟩ rfl ⟨0, 4⟩ ⟨1⟩ (fun _ => true) 37 27 23 5 0
      ⟨100, 5⟩ (some 100) (fun _ => none) []).2.2.2.2⟩

theorem rx_wait_skip (pre rest : List BleEvt)
    (hpre : ∀ e ∈ pre, Channel.rx_resolves e = none) :
    Channel.rx_wait (pre ++ rest) = Channel.rx_wait rest := by
  induction pre with
  | nil => rfl
  | cons a l ih =>
    have ha := hpre a (by simp)
    have htail : ∀ e ∈ l, Channel.rx_resolves e = none := fun e he => hpre e (by simp [he])
    simp [Channel.rx_wait, ha, ih htail]

/-- Claim C4: when the receive command of `Channel::rx` on a connected channel
is accepted and a disconnect or channel-released event reaches the portal
before any receive-complete event, `rx` resolves with `RxError::Disconnected`;
in particular the allocated receive buffer is never handed back to the
application (the only command issued is the single accepted rx command). -/
theorem channel_rx_disconnected_first (ch : Channel) (st : ConnectionState) (mtu p : Nat)
    (hw : Cmd → Option RawError) (pre rest : List BleEvt) (d : BleEvt)
    (hconn : st.connected = true)
    (hhw : hw (Cmd.l2capChRx st.conn_handle ch.cid p mtu) = none)
    (hpre : ∀ e ∈ pre, Channel.rx_resolves e = none)
    (hd : d = BleEvt.gapDisconnected ∨ d = BleEvt.chReleased) :
    Channel.rx ch st mtu (some p) hw (pre ++ d :: rest)
      = (Outcome.err RxError.disconnected,
         [Cmd.l2capChRx st.conn_handle ch.cid p mtu], []) := by
  have hcc : check_connected st = Except.ok st.conn_handle := by
    simp [check_connected, hconn]
  have hwait : Channel.rx_wait (pre ++ d :: rest) = Outcome.err RxError.disconnected := by
    rw [rx_wait_skip pre (d :: rest) hpre]
    rcases hd with h | h <;> subst h <;> rfl
  simp [Channel.rx, hcc, hhw, hwait]

theorem channel_rx_disconnected_first_witness :
    Channel.rx ⟨3, 4⟩ ⟨true, 3, 0, 0⟩ 23 (some 100) (fun _ => none)
        [BleEvt.chCredit, BleEvt.gapDisconnected, BleEvt.chRx 100 7]
      = (Outcome.err RxError.disconnected, [Cmd.l2capChRx 3 4 100 23], []) :=
  channel_rx_disconnected_first ⟨3, 4⟩ ⟨true, 3, 0, 0⟩ 23 100 (fun _ => none)
    [BleEvt.chCredit] [BleEvt.chRx 100 7] BleEvt.gapDisconnected rfl rfl
    (by intro e he; simp at he; subst he; rfl) (Or.inl rfl)

/-- Claim C8: when a setup-request event reaches `listen_with` and the
acceptance predicate holds for the requested PSM, an accept-response command
(status SUCCESS, mirroring the initiator PSM) is issued and the new channel is
returned, ending the wait; when the predicate rejects, a reject-response
command (status LE_PSM_NOT_SUPPORTED) is issued and the listener continues
waiting, behaving on the remaining events exactly as before the request. -/
theorem l2cap_listen_accept_reject (conn_handle credits rx_mps mtu psm local_cid : Nat)
    (accept_psm : Nat → Bool) (hw : Cmd → Option RawError) (rest : List BleEvt)
    (hhw : ∀ c, hw c = none) :
    (accept_psm psm = true →
      L2cap.listen_wait conn_handle credits rx_mps mtu accept_psm hw
          (BleEvt.chSetupRequest psm local_cid :: rest)
        = (Outcome.ok (psm, ⟨conn_handle, local_cid⟩),
           Cmd.l2capChSetup conn_handle local_cid psm BLE_L2CAP_CH_STATUS_CODE_SUCCESS
               rx_mps mtu ::
             (if credits = 1 then []
              else [Cmd.l2capChFlowControl conn_handle local_cid credits]))) ∧
    (accept_psm psm = false →
      L2cap.listen_wait conn_handle credits rx_mps mtu accept_psm hw
          (BleEvt.chSetupRequest psm local_cid :: rest)
        = ((L2cap.listen_wait conn_handle credits rx_mps mtu accept_psm hw rest).1,
           Cmd.l2capChSetup conn_handle local_cid psm
               BLE_L2CAP_CH_STATUS_CODE_LE_PSM_NOT_SUPPORTED 0 0 ::
             (L2cap.listen_wait conn_handle credits rx_mps mtu accept_psm hw rest).2)) := by
  constructor
  · intro hacc
    by_cases hc : credits = 1 <;>
      simp [L2cap.listen_wait, routesToPortal, hacc, hhw, hc]
  · intro hacc
    simp [L2cap.listen_wait, routesToPortal, hacc]

theorem l2cap_listen_accept_reject_witness :
    (L2cap.listen_wait 3 1 27 23 (fun p => decide (p = 37)) (fun _ => none)
        [BleEvt.chSetupRequest 37 5]
      = (Outcome.ok (37, ⟨3, 5⟩),
         [Cmd.l2capChSetup 3 5 37 BLE_L2CAP_CH_STATUS_CODE_SUCCESS 27 23])) ∧
    (L2cap.listen_wait 3 1 27 23 (fun p => decide (p = 37)) (fun _ => none)
        [BleEvt.chSetupRequest 48 7]
      = (Outcome.pending,
         [Cmd.l2capChSetup 3 7 48 BLE_L2CAP_CH_STATUS_CODE_LE_PSM_NOT_SUPPORTED 0 0])) := by
  constructor
  · have h := (l2cap_listen_accept_reject 3 1 27 23 37 5 (fun p => decide (p = 37))
      (fun _ => none) [] (fun _ => rfl)).1 (by decide)
    simpa using h
  · have h := (l2cap_listen_accept_reject 3 1 27 23 48 7 (fun p => decide (p = 37))
      (fun _ => none) [] (fun _ => rfl)).2 (by decide)
    simpa [L2cap.listen_wait] using h

/-- Claim C2, code bug: with the transmit queue full, `Channel::tx` suspends in
a `wait_once` whose closure accepts only `CH_TX` and `CH_RELEASED`; when the
disconnect event for the connection reaches the portal first, the closure hits
`unreachable!("Invalid event")` (l2cap.rs line 447) and the task aborts instead
of returning `TxError::Disconnected` as the claim states. -/
theorem channel_tx_disconnect_panics :
    Channel.tx ⟨3, 4⟩ ⟨true, 3, 0, 0⟩ 23 0 ⟨100, 5⟩ [BleEvt.gapDisconnected]
      = (Outcome.panicked "Invalid event", [Cmd.l2capChTx 3 4 100 5]) := by
  rw [Channel.tx, Channel.tx_run]
  simp [Channel.try_tx, check_connected, RawPacket.into_raw_parts, txHw,
    nextPortalEvt, routesToPortal, dispatchConn, dispatchQueue, RawPacket.from_raw_parts]

/-- Companion to claim C2: the successful half of the claim does hold in the
model: with the queue full, delivery of a single transmit-completed event
wakes the waiter, the retried tx command is accepted, and `tx` returns Ok. -/
theorem channel_tx_after_chtx_ok :
    Channel.tx ⟨3, 4⟩ ⟨true, 3, 0, 0⟩ 23 0 ⟨100, 5⟩ [BleEvt.chTx 100]
      = (Outcome.ok (), [Cmd.l2capChTx 3 4 100 5, Cmd.l2capChTx 3 4 100 5]) := by
  rw [Channel.tx, Channel.tx_run]
  simp [Channel.try_tx, check_connected, RawPacket.into_raw_parts, txHw,
    nextPortalEvt, routesToPortal, dispatchConn, dispatchQueue, RawPacket.from_raw_parts]
  rw [Channel.tx_run]
  simp [Channel.try_tx, check_connected, RawPacket.into_raw_parts, txHw,
    RawPacket.from_raw_parts]
